import Mathlib

/-!
Verification of the grid module (`pyvista/core/grid.py`): `RectilinearGrid`
and `UniformGrid`, thin wrappers around the toolkit's rectilinear and image
grids.  Numeric array entries are modelled exactly, over an arbitrary linear
ordered commutative ring (the module only ever adds, subtracts, multiplies,
takes minima and compares coordinates); concrete evaluations instantiate the
ring with the integers.  A numpy 1-D array is a `List α`, an N-by-3 point
array a `List (α × α × α)`, and the attribute dictionaries association lists
keyed by opaque identifiers.  Mutation of a wrapped grid object is modelled
by explicit state passing: each mutating method takes the receiver and
returns the updated receiver.
-/

section GridModule

variable {α : Type} [LinearOrderedCommRing α]

/-- Model of `numpy.unique` on a 1-D array: the sorted list of the distinct
values of the input. -/
def npUnique (l : List α) : List α :=
  (l.insertionSort (· ≤ ·)).dedup

/-- Model of `numpy.full(n, v)`: `n` copies of `v`. -/
def npFull (n : Nat) (v : α) : List α :=
  List.replicate n v

/-- Running partial sums with accumulator `acc` (helper for `npCumsum`). -/
def cumsumFrom (acc : α) : List α → List α
  | [] => []
  | a :: t => (acc + a) :: cumsumFrom (acc + a) t

/-- Model of `numpy.cumsum` on a 1-D array. -/
def npCumsum (l : List α) : List α :=
  cumsumFrom 0 l

/-- Model of `numpy.diff` on a 1-D array: differences of consecutive entries. -/
def npDiff (l : List α) : List α :=
  List.zipWith (fun a b => b - a) l l.tail

/-- Model of `numpy.min` on a 1-D array.  `numpy` raises on an empty array;
the `0` in that branch is never reached by the operations modelled here,
which only take minima of arrays already known to be non-empty. -/
def npMin (l : List α) : α :=
  match l with
  | [] => 0
  | a :: t => t.foldl min a

/-- Model of `np.meshgrid(x, y, z, indexing='ij')` followed by
`np.c_[xx.ravel(order='F'), yy.ravel(order='F'), zz.ravel(order='F')]`:
the flat point list in Fortran order, first axis index varying fastest.
Both `points` getters of the module produce their output this way. -/
def meshgridRavelF (x y z : List α) : List (α × α × α) :=
  z.flatMap (fun c => y.flatMap (fun b => x.map (fun a => (a, b, c))))

/-- Model of a `dict.update` call on an attribute dictionary: entries of `e`
override entries of `d` with the same key.  `DataSet`'s attribute
dictionaries are not part of this module; their behaviour is
Modelled from the spec: conversion "copying attached attribute data". -/
def dictUpdate (d e : List (Nat × List α)) : List (Nat × List α) :=
  d.filter (fun kv => e.all (fun kv2 => kv2.1 ≠ kv.1)) ++ e

/-- State of a wrapped `vtkRectilinearGrid`: the dimensions set through
`SetDimensions`, the three coordinate arrays set through
`Set{X,Y,Z}Coordinates`, plus the attribute dictionaries and metadata the
grid carries as a `DataSet`. -/
structure RectilinearGrid (α : Type) where
  dims : Nat × Nat × Nat
  xCoords : List α
  yCoords : List α
  zCoords : List α
  point_arrays : List (Nat × List α)
  cell_arrays : List (Nat × List α)
  field_arrays : List (Nat × List α)
  meta : List (Nat × α)
deriving DecidableEq

/-- A freshly constructed (empty) rectilinear grid: no coordinates, no
attribute data, toolkit-default dimensions. -/
def RectilinearGrid.empty : RectilinearGrid α :=
  ⟨(0, 0, 0), [], [], [], [], [], [], []⟩

/-- `RectilinearGrid._from_arrays` (grid.py lines 124-150): takes the unique
values of each (ravelled) coordinate argument, sets the dimensions to the
three lengths and stores the three coordinate arrays. -/
def RectilinearGrid.fromArrays (g : RectilinearGrid α) (x y z : List α) :
    RectilinearGrid α :=
  let xu := npUnique x
  let yu := npUnique y
  let zu := npUnique z
  { g with dims := (xu.length, yu.length, zu.length),
           xCoords := xu, yCoords := yu, zCoords := zu }

/-- `RectilinearGrid.__init__` called with three numpy arrays
(grid.py lines 98-101). -/
def RectilinearGrid.initArrays3 (x y z : List α) : RectilinearGrid α :=
  RectilinearGrid.empty.fromArrays x y z

/-- `RectilinearGrid.__init__` called with two numpy arrays
(grid.py lines 98-101): the argument tuple is padded with `np.array([0.])`
before `_from_arrays` is invoked. -/
def RectilinearGrid.initArrays2 (x y : List α) : RectilinearGrid α :=
  RectilinearGrid.empty.fromArrays x y [0]

/-- `RectilinearGrid.x` getter (grid.py lines 177-180): the stored
X-coordinate array. -/
def RectilinearGrid.x (g : RectilinearGrid α) : List α :=
  g.xCoords

/-- `RectilinearGrid.y` getter (grid.py lines 188-191). -/
def RectilinearGrid.y (g : RectilinearGrid α) : List α :=
  g.yCoords

/-- `RectilinearGrid.z` getter (grid.py lines 199-202). -/
def RectilinearGrid.z (g : RectilinearGrid α) : List α :=
  g.zCoords

/-- `RectilinearGrid.x` setter (grid.py lines 182-186): stores the given
coordinates as the X-coordinate array, unchanged. -/
def RectilinearGrid.setX (g : RectilinearGrid α) (coords : List α) :
    RectilinearGrid α :=
  { g with xCoords := coords }

/-- `RectilinearGrid.y` setter (grid.py lines 193-197). -/
def RectilinearGrid.setY (g : RectilinearGrid α) (coords : List α) :
    RectilinearGrid α :=
  { g with yCoords := coords }

/-- `RectilinearGrid.z` setter (grid.py lines 205-209). -/
def RectilinearGrid.setZ (g : RectilinearGrid α) (coords : List α) :
    RectilinearGrid α :=
  { g with zCoords := coords }

/-- `RectilinearGrid.points` getter (grid.py lines 153-160): meshgrid of the
three stored coordinate arrays, ravelled in Fortran order. -/
def RectilinearGrid.points (g : RectilinearGrid α) : List (α × α × α) :=
  meshgridRavelF g.xCoords g.yCoords g.zCoords

/-- `RectilinearGrid.points` setter (grid.py lines 162-174), array branch:
takes the unique values of each column and feeds them to `_from_arrays`. -/
def RectilinearGrid.setPoints (g : RectilinearGrid α)
    (pts : List (α × α × α)) : RectilinearGrid α :=
  g.fromArrays (npUnique (pts.map (fun p => p.1)))
    (npUnique (pts.map (fun p => p.2.1)))
    (npUnique (pts.map (fun p => p.2.2)))

/-- State of a wrapped `vtkImageData`: dimensions, spacing and origin, plus
the attribute dictionaries and metadata carried as a `DataSet`.  Node
coordinates are not stored; they are derived by the `points` getter. -/
structure UniformGrid (α : Type) where
  dims : Nat × Nat × Nat
  spacing : α × α × α
  origin : α × α × α
  point_arrays : List (Nat × List α)
  cell_arrays : List (Nat × List α)
  field_arrays : List (Nat × List α)
  meta : List (Nat × α)
deriving DecidableEq

/-- A freshly constructed (empty) uniform grid, holding the wrapped
toolkit's defaults: dimensions `(0,0,0)`, spacing `(1,1,1)`,
origin `(0,0,0)`, no attribute data. -/
def UniformGrid.empty : UniformGrid α :=
  ⟨(0, 0, 0), (1, 1, 1), (0, 0, 0), [], [], [], []⟩

/-- `UniformGrid._from_specs` (grid.py lines 318-342): sets dimensions,
origin and spacing from the three length-3 specifications. -/
def UniformGrid.fromSpecs (g : UniformGrid α) (dims : Nat × Nat × Nat)
    (spacing origin : α × α × α) : UniformGrid α :=
  { g with dims := dims, spacing := spacing, origin := origin }

/-- One axis of the `UniformGrid.points` getter (grid.py lines 357-359):
`np.insert(np.cumsum(np.full(n - 1, d)), 0, 0.0) + o`. -/
def uniformAxis (n : Nat) (d o : α) : List α :=
  (0 :: npCumsum (npFull (n - 1) d)).map (fun v => v + o)

/-- `UniformGrid.points` getter (grid.py lines 345-361): derives the three
axis coordinate lists from dimensions, spacing and origin, then meshgrids
and ravels them in Fortran order. -/
def UniformGrid.points (g : UniformGrid α) : List (α × α × α) :=
  meshgridRavelF (uniformAxis g.dims.1 g.spacing.1 g.origin.1)
    (uniformAxis g.dims.2.1 g.spacing.2.1 g.origin.2.1)
    (uniformAxis g.dims.2.2 g.spacing.2.2 g.origin.2.2)

/-- `UniformGrid.points` setter (grid.py lines 363-379), array branch: takes
the unique values of each column, derives per-axis spacing as
`np.unique(np.diff(...))`, the origin as the per-axis minima and the
dimensions as the unique-value counts, then calls `_from_specs`.  The
spacing arrays are passed to the toolkit's `SetSpacing`, which only accepts
them when they convert to single floats; a non-singleton spacing array makes
the toolkit itself fail, which the module does not handle (`none` here). -/
def UniformGrid.setPoints (g : UniformGrid α) (pts : List (α × α × α)) :
    Option (UniformGrid α) :=
  let x := npUnique (pts.map (fun p => p.1))
  let y := npUnique (pts.map (fun p => p.2.1))
  let z := npUnique (pts.map (fun p => p.2.2))
  match npUnique (npDiff x), npUnique (npDiff y), npUnique (npDiff z) with
  | [dx], [dy], [dz] =>
      some (g.fromSpecs (x.length, y.length, z.length) (dx, dy, dz)
        (npMin x, npMin y, npMin z))
  | _, _, _ => none

/-- One axis of `UniformGrid.cast_to_rectilinear_grid` (grid.py lines
443-447): `np.cumsum(np.insert(np.full(dims[i] - 1, spacing[i]), 0, 0)) +
origin[i]`. -/
def genCoords (n : Nat) (d o : α) : List α :=
  (npCumsum (0 :: npFull (n - 1) d)).map (fun v => v + o)

/-- `UniformGrid.cast_to_rectilinear_grid` (grid.py lines 441-456): builds a
rectilinear grid from the three sampled coordinate arrays, then copies the
attribute dictionaries (via `dict.update` on the fresh grid's empty
dictionaries) and the metadata.  `copy_meta_from` lives in `DataSet`, not in
this module; it is Modelled from the spec: conversion "copying attached
attribute data and metadata". -/
def UniformGrid.cast_to_rectilinear_grid (g : UniformGrid α) :
    RectilinearGrid α :=
  let grid := RectilinearGrid.initArrays3
    (genCoords g.dims.1 g.spacing.1 g.origin.1)
    (genCoords g.dims.2.1 g.spacing.2.1 g.origin.2.1)
    (genCoords g.dims.2.2 g.spacing.2.2 g.origin.2.2)
  { grid with
      point_arrays := dictUpdate grid.point_arrays g.point_arrays,
      cell_arrays := dictUpdate grid.cell_arrays g.cell_arrays,
      field_arrays := dictUpdate grid.field_arrays g.field_arrays,
      meta := g.meta }

/-- `cast_to_rectilinear_grid` with the receiver's final state made
explicit: the method only reads from `self`, so the second component is the
receiver unchanged. -/
def UniformGrid.castFull (g : UniformGrid α) :
    RectilinearGrid α × UniformGrid α :=
  (g.cast_to_rectilinear_grid, g)

/-- `cast_to_rectilinear_grid` including the wrapped-library error path:
`gen_coords` evaluates `np.full(self.dimensions[i] - 1, ...)`, and numpy
raises `ValueError` on a negative count, so the cast only produces a grid
when every dimension is at least 1.  `none` models that numpy error (a
failure of the wrapped toolkit, not a raise of this module). -/
def UniformGrid.castToRectilinearGrid? (g : UniformGrid α) :
    Option (RectilinearGrid α) :=
  if 0 < g.dims.1 ∧ 0 < g.dims.2.1 ∧ 0 < g.dims.2.2 then
    some g.cast_to_rectilinear_grid
  else none

/-- The errors the module's own `raise` statements can produce. -/
inductive PyError : Type
  | typeError
deriving DecidableEq

/-- A Python value handed to a points setter: either a numpy N-by-3 point
array, or any other object. -/
inductive PyValue (α : Type) : Type
  | ndarray (pts : List (α × α × α))
  | other
deriving DecidableEq

/-- The concrete class on which `Grid(...)` is invoked. -/
inductive GridClass : Type
  | grid
  | rectilinearGrid
  | uniformGrid
deriving DecidableEq

/-- `Grid.__new__` (grid.py lines 21-25): refuses to instantiate the
abstract class `Grid` itself with a `TypeError`, and allocates normally for
the subclasses. -/
def gridNew (cls : GridClass) : Except PyError Unit :=
  if cls = GridClass.grid then Except.error PyError.typeError else Except.ok ()

/-- `RectilinearGrid.points` setter including its type check (grid.py lines
162-166): a non-array argument raises `TypeError`. -/
def RectilinearGrid.setPointsChecked (g : RectilinearGrid α)
    (v : PyValue α) : Except PyError (RectilinearGrid α) :=
  match v with
  | PyValue.ndarray pts => Except.ok (g.setPoints pts)
  | PyValue.other => Except.error PyError.typeError

/-- `UniformGrid.points` setter including its type check (grid.py lines
363-367): a non-array argument raises `TypeError`. -/
def UniformGrid.setPointsChecked (g : UniformGrid α) (v : PyValue α) :
    Except PyError (Option (UniformGrid α)) :=
  match v with
  | PyValue.ndarray pts => Except.ok (g.setPoints pts)
  | PyValue.other => Except.error PyError.typeError

/-- Which `_from_specs` call `UniformGrid.__init__` makes. -/
inductive SpecsCall : Type
  | noCall
  | withTwo
  | withThree
deriving DecidableEq

/-- The dispatch of `UniformGrid.__init__` for two or three positional
specification arguments (grid.py lines 284-296), as a function of the
argument lengths; `l2?` is `none` when only two arguments are given. -/
def uniformInitDispatch (l0 l1 : Nat) (l2? : Option Nat) : SpecsCall :=
  let arg0Valid := l0 == 3
  let arg1Valid := l1 == 3
  let arg2Valid := match l2? with
    | some l2 => l2 == 3
    | none => false
  if arg0Valid && arg1Valid && arg2Valid then SpecsCall.withThree
  else if arg0Valid && arg1Valid then SpecsCall.withTwo
  else SpecsCall.noCall

/-- `UniformGrid.__init__` with two or three positional specification
arguments (grid.py lines 272-296): dims, spacing, and optionally origin.
When neither guard fires, the freshly initialized empty grid is left as is;
with only the first two arguments valid, `_from_specs` is called with the
first two arguments and its default origin `(0.0, 0.0, 0.0)`. -/
def UniformGrid.initMultiArg (dims : List Nat) (spacing : List α)
    (origin? : Option (List α)) : UniformGrid α :=
  match uniformInitDispatch dims.length spacing.length
      (origin?.map List.length) with
  | SpecsCall.withThree =>
      let og := (origin?.getD []).getD 0 0
      let og1 := (origin?.getD []).getD 1 0
      let og2 := (origin?.getD []).getD 2 0
      UniformGrid.empty.fromSpecs (dims.getD 0 0, dims.getD 1 0, dims.getD 2 0)
        (spacing.getD 0 0, spacing.getD 1 0, spacing.getD 2 0) (og, og1, og2)
  | SpecsCall.withTwo =>
      UniformGrid.empty.fromSpecs (dims.getD 0 0, dims.getD 1 0, dims.getD 2 0)
        (spacing.getD 0 0, spacing.getD 1 0, spacing.getD 2 0) (0, 0, 0)
  | SpecsCall.noCall => UniformGrid.empty

end GridModule

section GridLemmas

variable {α : Type} [LinearOrderedCommRing α]

/-- The output of `npUnique` is strictly increasing. -/
theorem npUnique_sorted (l : List α) : (npUnique l).Sorted (· < ·) := by
  have hs : (l.insertionSort (· ≤ ·)).Sorted (· ≤ ·) :=
    List.sorted_insertionSort _ l
  have hsub := List.dedup_sublist (l.insertionSort (· ≤ ·))
  have hle : (npUnique l).Sorted (· ≤ ·) := List.Pairwise.sublist hsub hs
  exact hle.lt_of_le (List.nodup_dedup _)

/-- The output of `npUnique` has no duplicates. -/
theorem npUnique_nodup (l : List α) : (npUnique l).Nodup :=
  List.nodup_dedup _

/-- `npUnique` keeps exactly the values of its input. -/
theorem mem_npUnique (l : List α) (a : α) : a ∈ npUnique l ↔ a ∈ l := by
  rw [npUnique, List.mem_dedup]
  exact (List.perm_insertionSort _ l).mem_iff

/-- A strictly increasing list is a fixed point of `npUnique`. -/
theorem npUnique_of_sorted {l : List α} (h : l.Sorted (· < ·)) :
    npUnique l = l := by
  rw [npUnique, List.Sorted.insertionSort_eq h.le_of_lt,
    List.dedup_eq_self.mpr h.nodup]

/-- `npUnique` of a one-element array is that array. -/
theorem npUnique_singleton (a : α) : npUnique [a] = [a] :=
  npUnique_of_sorted (List.sorted_singleton a)

/-- Membership in the Fortran-ravelled meshgrid is membership in the three
axis arrays componentwise. -/
theorem mem_meshgridRavelF {x y z : List α} {p : α × α × α} :
    p ∈ meshgridRavelF x y z ↔ p.1 ∈ x ∧ p.2.1 ∈ y ∧ p.2.2 ∈ z := by
  obtain ⟨a, b, c⟩ := p
  simp only [meshgridRavelF, List.mem_flatMap, List.mem_map, Prod.mk.injEq]
  constructor
  · rintro ⟨c1, hc1, b1, hb1, a1, ha1, rfl, rfl, rfl⟩
    exact ⟨ha1, hb1, hc1⟩
  · rintro ⟨ha, hb, hc⟩
    exact ⟨c, hc, b, hb, a, ha, rfl, rfl, rfl⟩

/-- Elements of one meshgrid row share its second and third components. -/
theorem mem_meshgrid_row {x : List α} {b c : α} {p : α × α × α}
    (hp : p ∈ x.map (fun a => (a, b, c))) : p.2.1 = b ∧ p.2.2 = c := by
  obtain ⟨a, _, rfl⟩ := List.mem_map.mp hp
  exact ⟨rfl, rfl⟩

/-- Elements of one meshgrid plane share its third component. -/
theorem mem_meshgrid_plane {x y : List α} {c : α} {p : α × α × α}
    (hp : p ∈ y.flatMap (fun b => x.map (fun a => (a, b, c)))) : p.2.2 = c := by
  obtain ⟨b, _, hb⟩ := List.mem_flatMap.mp hp
  exact (mem_meshgrid_row hb).2

/-- The Fortran-ravelled meshgrid of duplicate-free axis arrays has no
duplicate points. -/
theorem meshgridRavelF_nodup {x y z : List α} (hx : x.Nodup) (hy : y.Nodup)
    (hz : z.Nodup) : (meshgridRavelF x y z).Nodup := by
  rw [meshgridRavelF, List.nodup_flatMap]
  refine ⟨?_, ?_⟩
  · intro c _
    rw [List.nodup_flatMap]
    refine ⟨?_, ?_⟩
    · intro b _
      exact hx.map fun a1 a2 h => congrArg Prod.fst h
    · refine hy.imp ?_
      intro b1 b2 hne p hp1 hp2
      exact hne ((mem_meshgrid_row hp1).1.symm.trans (mem_meshgrid_row hp2).1)
  · refine hz.imp ?_
    intro c1 c2 hne p hp1 hp2
    exact hne ((mem_meshgrid_plane hp1).symm.trans (mem_meshgrid_plane hp2))

/-- Length of a `flatMap` whose pieces all have length `m`. -/
theorem length_flatMap_const {β γ : Type} (f : β → List γ) (m : Nat)
    (hm : ∀ a, (f a).length = m) (l : List β) :
    (l.flatMap f).length = m * l.length := by
  induction l with
  | nil => simp
  | cons a t ih =>
      simp only [List.flatMap_cons, List.length_append, hm a, ih,
        List.length_cons, Nat.mul_succ]
      omega

/-- Indexing into a `flatMap` whose pieces all have length `m`: position
`m * k + r` with `r < m` reads position `r` of the `k`-th piece. -/
theorem getElem?_flatMap_const {β γ : Type} (f : β → List γ) (m : Nat)
    (hm : ∀ a, (f a).length = m) :
    ∀ (l : List β) (k r : Nat), r < m →
      (l.flatMap f)[m * k + r]? = l[k]?.bind (fun a => (f a)[r]?)
  | [], k, r, _ => by simp
  | a :: t, 0, r, hr => by
      rw [List.flatMap_cons, Nat.mul_zero, Nat.zero_add,
        List.getElem?_append_left (by rw [hm a]; exact hr)]
      simp
  | a :: t, Nat.succ k, r, hr => by
      rw [List.flatMap_cons]
      have hlen : (f a).length ≤ m * (k + 1) + r := by
        rw [hm a, Nat.mul_succ]; omega
      rw [List.getElem?_append_right hlen]
      have hidx : m * (k + 1) + r - (f a).length = m * k + r := by
        rw [hm a, Nat.mul_succ]; omega
      rw [hidx, getElem?_flatMap_const f m hm t k r hr]
      simp

/-- Indexing into the Fortran-ravelled meshgrid: flat position
`i + |x| * (j + |y| * k)` reads `x` at `i`, `y` at `j` and `z` at `k`. -/
theorem getElem?_meshgridRavelF (x y z : List α) (i j k : Nat)
    (hi : i < x.length) (hj : j < y.length) :
    (meshgridRavelF x y z)[i + x.length * (j + y.length * k)]? =
      z[k]?.bind (fun c => some (x[i], y[j], c)) := by
  have hplane : ∀ c : α,
      (y.flatMap (fun b => x.map (fun a => (a, b, c)))).length =
        x.length * y.length := by
    intro c
    rw [length_flatMap_const _ x.length (fun b => by simp) y]
  have hr : x.length * j + i < x.length * y.length := by
    have h1 : x.length * j + i < x.length * (j + 1) := by
      rw [Nat.mul_succ]; omega
    exact Nat.lt_of_lt_of_le h1 (Nat.mul_le_mul_left _ hj)
  have hidx : i + x.length * (j + y.length * k) =
      (x.length * y.length) * k + (x.length * j + i) := by ring
  rw [meshgridRavelF, hidx,
    getElem?_flatMap_const _ (x.length * y.length) hplane z k _ hr]
  cases hz : z[k]? with
  | none => simp
  | some c =>
      simp only [Option.some_bind]
      rw [getElem?_flatMap_const _ x.length (fun b => by simp) y j i hi,
        List.getElem?_eq_getElem hj]
      simp only [Option.some_bind]
      simp [List.getElem?_eq_getElem hi]

/-- Partial sums of a constant list: the `i`-th entry is `acc + (i+1)*d`. -/
theorem cumsumFrom_replicate (m : Nat) (acc d : α) :
    cumsumFrom acc (List.replicate m d) =
      (List.range m).map (fun i : Nat => acc + ((i : α) + 1) * d) := by
  induction m generalizing acc with
  | zero => simp [cumsumFrom]
  | succ n ih =>
      rw [List.replicate_succ,
        show cumsumFrom acc (d :: List.replicate n d) =
          (acc + d) :: cumsumFrom (acc + d) (List.replicate n d) from rfl,
        ih (acc + d), List.range_succ_eq_map]
      simp only [List.map_cons, List.map_map, List.cons.injEq]
      constructor
      · push_cast; ring
      · refine List.map_congr_left ?_
        intro i _
        simp only [Function.comp_apply]
        push_cast
        ring

/-- The axis list of the `UniformGrid.points` getter in closed form. -/
theorem uniformAxis_eq (n : Nat) (d o : α) :
    uniformAxis n d o =
      (List.range ((n - 1) + 1)).map (fun i : Nat => o + (i : α) * d) := by
  rw [uniformAxis, npCumsum, npFull, cumsumFrom_replicate,
    List.range_succ_eq_map]
  simp only [List.map_cons, List.map_map, List.cons.injEq]
  constructor
  · push_cast; ring
  · refine List.map_congr_left ?_
    intro i _
    simp only [Function.comp_apply]
    push_cast
    ring

/-- Length of the derived axis list. -/
theorem length_uniformAxis (n : Nat) (d o : α) :
    (uniformAxis n d o).length = (n - 1) + 1 := by
  rw [uniformAxis_eq]
  simp

/-- Entry `i` of the derived axis list is `o + i * d`. -/
theorem getElem?_uniformAxis {n : Nat} (d o : α) {i : Nat} (hi : i < n) :
    (uniformAxis n d o)[i]? = some (o + (i : α) * d) := by
  rw [uniformAxis_eq]
  have hlt : i < (n - 1) + 1 := by omega
  simp [List.getElem?_range hlt]

/-- The coordinate sampling of `cast_to_rectilinear_grid` produces the same
list as the axis derivation of the `points` getter (`cumsum` after the
leading-zero insert versus insert after `cumsum`). -/
theorem genCoords_eq_uniformAxis (n : Nat) (d o : α) :
    genCoords n d o = uniformAxis n d o := by
  rw [genCoords, uniformAxis]
  simp [npCumsum, cumsumFrom]

/-- With positive spacing the derived axis list is strictly increasing. -/
theorem uniformAxis_sorted {n : Nat} {d : α} (o : α) (hd : 0 < d) :
    (uniformAxis n d o).Sorted (· < ·) := by
  rw [uniformAxis_eq]
  refine List.pairwise_map.mpr ?_
  refine (List.pairwise_lt_range _).imp ?_
  intro i j hij
  have hc : (i : α) < (j : α) := by exact_mod_cast hij
  have := mul_lt_mul_of_pos_right hc hd
  linarith

end GridLemmas

section ClaimTheorems

variable {α : Type} [LinearOrderedCommRing α]

/-- C1: for non-empty coordinate arrays `x`, `y`, `z`, constructing a
`RectilinearGrid` from them and reading `.x`, `.y`, `.z` back returns
exactly the unique, sorted version of each input: a strictly increasing
array whose members are exactly the members of the corresponding input. -/
theorem rect_initArrays3_axis_roundtrip (x y z : List α)
    (_hx : x ≠ []) (_hy : y ≠ []) (_hz : z ≠ []) :
    ((RectilinearGrid.initArrays3 x y z).x.Sorted (· < ·)
      ∧ ∀ a, a ∈ (RectilinearGrid.initArrays3 x y z).x ↔ a ∈ x)
    ∧ ((RectilinearGrid.initArrays3 x y z).y.Sorted (· < ·)
      ∧ ∀ a, a ∈ (RectilinearGrid.initArrays3 x y z).y ↔ a ∈ y)
    ∧ ((RectilinearGrid.initArrays3 x y z).z.Sorted (· < ·)
      ∧ ∀ a, a ∈ (RectilinearGrid.initArrays3 x y z).z ↔ a ∈ z) :=
  ⟨⟨npUnique_sorted x, fun a => mem_npUnique x a⟩,
   ⟨npUnique_sorted y, fun a => mem_npUnique y a⟩,
   ⟨npUnique_sorted z, fun a => mem_npUnique z a⟩⟩

/-- Witness for C1 at concrete integer arrays. -/
theorem rect_initArrays3_axis_roundtrip_witness :
    (([3, 1, 1] : List ℤ) ≠ [] ∧ ([5] : List ℤ) ≠ [] ∧ ([2, 0] : List ℤ) ≠ [])
    ∧ (((RectilinearGrid.initArrays3 ([3, 1, 1] : List ℤ) [5] [2, 0]).x.Sorted (· < ·)
        ∧ ∀ a, a ∈ (RectilinearGrid.initArrays3 ([3, 1, 1] : List ℤ) [5] [2, 0]).x ↔ a ∈ [3, 1, 1])
      ∧ ((RectilinearGrid.initArrays3 ([3, 1, 1] : List ℤ) [5] [2, 0]).y.Sorted (· < ·)
        ∧ ∀ a, a ∈ (RectilinearGrid.initArrays3 ([3, 1, 1] : List ℤ) [5] [2, 0]).y ↔ a ∈ [5])
      ∧ ((RectilinearGrid.initArrays3 ([3, 1, 1] : List ℤ) [5] [2, 0]).z.Sorted (· < ·)
        ∧ ∀ a, a ∈ (RectilinearGrid.initArrays3 ([3, 1, 1] : List ℤ) [5] [2, 0]).z ↔ a ∈ [2, 0])) :=
  ⟨⟨by decide, by decide, by decide⟩,
   rect_initArrays3_axis_roundtrip [3, 1, 1] [5] [2, 0]
     (by decide) (by decide) (by decide)⟩

/-- C2: assigning a point array to a rectilinear grid's `points` property
and reading `points` back yields exactly the deduplicated Cartesian product
of the unique values of the three input columns: a point is in the result
iff its components are unique values of the respective columns, and the
result has no duplicate points. -/
theorem rect_setPoints_points_roundtrip (g : RectilinearGrid α)
    (pts : List (α × α × α)) :
    (∀ p : α × α × α, p ∈ (g.setPoints pts).points ↔
        p.1 ∈ npUnique (pts.map (fun q => q.1))
          ∧ p.2.1 ∈ npUnique (pts.map (fun q => q.2.1))
          ∧ p.2.2 ∈ npUnique (pts.map (fun q => q.2.2)))
    ∧ ((g.setPoints pts).points).Nodup := by
  have hpts : (g.setPoints pts).points =
      meshgridRavelF (npUnique (npUnique (pts.map (fun q => q.1))))
        (npUnique (npUnique (pts.map (fun q => q.2.1))))
        (npUnique (npUnique (pts.map (fun q => q.2.2)))) := rfl
  constructor
  · intro p
    rw [hpts, mem_meshgridRavelF]
    constructor
    · rintro ⟨h1, h2, h3⟩
      exact ⟨(mem_npUnique _ _).mp h1, (mem_npUnique _ _).mp h2,
        (mem_npUnique _ _).mp h3⟩
    · rintro ⟨h1, h2, h3⟩
      exact ⟨(mem_npUnique _ _).mpr h1, (mem_npUnique _ _).mpr h2,
        (mem_npUnique _ _).mpr h3⟩
  · rw [hpts]
    exact meshgridRavelF_nodup (npUnique_nodup _) (npUnique_nodup _)
      (npUnique_nodup _)

/-- C3 counterexample: the public `.x` setter stores the supplied array
unchanged, so after setting `.x` to `[1, 1]` the stored X-coordinate array
is not strictly increasing (it is not even duplicate-free). -/
theorem rect_setX_unsorted_cex :
    ¬ ((RectilinearGrid.setX
        (RectilinearGrid.initArrays3 ([0] : List ℤ) [0] [0])
        [1, 1]).x.Sorted (· < ·)) := by
  decide

/-- C3 amended: construction from arrays (and hence `_from_arrays`) and the
`points` setter store strictly increasing, duplicate-free axis coordinate
arrays; the `.x`/`.y`/`.z` setters instead store the supplied array
unchanged, without deduplication or sorting. -/
theorem rect_coordinate_invariant_amended (g : RectilinearGrid α)
    (x y z c : List α) (pts : List (α × α × α)) :
    (RectilinearGrid.initArrays3 x y z).xCoords.Sorted (· < ·)
    ∧ (RectilinearGrid.initArrays3 x y z).yCoords.Sorted (· < ·)
    ∧ (RectilinearGrid.initArrays3 x y z).zCoords.Sorted (· < ·)
    ∧ (g.fromArrays x y z).xCoords.Sorted (· < ·)
    ∧ (g.fromArrays x y z).yCoords.Sorted (· < ·)
    ∧ (g.fromArrays x y z).zCoords.Sorted (· < ·)
    ∧ (g.setPoints pts).xCoords.Sorted (· < ·)
    ∧ (g.setPoints pts).yCoords.Sorted (· < ·)
    ∧ (g.setPoints pts).zCoords.Sorted (· < ·)
    ∧ (g.setX c).xCoords = c
    ∧ (g.setY c).yCoords = c
    ∧ (g.setZ c).zCoords = c :=
  ⟨npUnique_sorted x, npUnique_sorted y, npUnique_sorted z,
   npUnique_sorted x, npUnique_sorted y, npUnique_sorted z,
   npUnique_sorted _, npUnique_sorted _, npUnique_sorted _,
   rfl, rfl, rfl⟩

/-- C4 counterexample: `Grid.__new__` also raises a `TypeError` directly
(refusing to instantiate the abstract class), so the type check in the
point-setting accessors is not the only error raised by the module. -/
theorem gridNew_raises_cex :
    gridNew GridClass.grid = Except.error PyError.typeError := rfl

/-- C4 amended: the errors raised directly by the module are exactly the
`TypeError` of the two points setters on non-array input and the
`TypeError` of `Grid.__new__` on instantiating the abstract `Grid` class;
every other modelled operation is total. -/
theorem module_raise_characterization (g : RectilinearGrid α)
    (u : UniformGrid α) (v w : PyValue α) (cls : GridClass) :
    (g.setPointsChecked v = Except.error PyError.typeError ↔ v = PyValue.other)
    ∧ (u.setPointsChecked w = Except.error PyError.typeError ↔ w = PyValue.other)
    ∧ (gridNew cls = Except.error PyError.typeError ↔ cls = GridClass.grid) := by
  refine ⟨?_, ?_, ?_⟩
  · cases v <;> simp [RectilinearGrid.setPointsChecked]
  · cases w <;> simp [UniformGrid.setPointsChecked]
  · cases cls <;> simp [gridNew]

/-- C5: casting a uniform grid with origin `(0,0,0)`, spacing `(1,1,1)` and
dimensions `(2,2,2)` to a rectilinear grid yields the axis coordinate array
`[0, 1]` on each of the three axes. -/
theorem cast_uniform_222_axes :
    ((UniformGrid.mk (2, 2, 2) (1, 1, 1) (0, 0, 0) [] [] [] [] :
        UniformGrid ℤ).cast_to_rectilinear_grid.x = [0, 1])
    ∧ ((UniformGrid.mk (2, 2, 2) (1, 1, 1) (0, 0, 0) [] [] [] [] :
        UniformGrid ℤ).cast_to_rectilinear_grid.y = [0, 1])
    ∧ ((UniformGrid.mk (2, 2, 2) (1, 1, 1) (0, 0, 0) [] [] [] [] :
        UniformGrid ℤ).cast_to_rectilinear_grid.z = [0, 1]) := by
  decide

/-- The flat point list of a uniform grid, indexed at Fortran position
`i + nx * (j + ny * k)`. -/
theorem uniform_points_index (nx ny nz : Nat) (dx dy dz ox oy oz : α)
    (i j k : Nat) (hi : i < nx) (hj : j < ny) (hk : k < nz) :
    (meshgridRavelF (uniformAxis nx dx ox) (uniformAxis ny dy oy)
        (uniformAxis nz dz oz))[i + nx * (j + ny * k)]? =
      some (ox + (i : α) * dx, oy + (j : α) * dy, oz + (k : α) * dz) := by
  have hnx : (uniformAxis nx dx ox).length = nx := by
    rw [length_uniformAxis]; omega
  have hny : (uniformAxis ny dy oy).length = ny := by
    rw [length_uniformAxis]; omega
  have hi2 : i < (uniformAxis nx dx ox).length := by rw [hnx]; exact hi
  have hj2 : j < (uniformAxis ny dy oy).length := by rw [hny]; exact hj
  have h := getElem?_meshgridRavelF (uniformAxis nx dx ox)
    (uniformAxis ny dy oy) (uniformAxis nz dz oz) i j k hi2 hj2
  rw [hnx, hny] at h
  rw [h, getElem?_uniformAxis dz oz hk]
  simp only [Option.some_bind]
  have hx := getElem?_uniformAxis dx ox hi
  have hy := getElem?_uniformAxis dy oy hj
  rw [List.getElem?_eq_getElem hi2] at hx
  rw [List.getElem?_eq_getElem hj2] at hy
  rw [Option.some.inj hx, Option.some.inj hy]

/-- C6: the `points` getter of a uniform grid derives every node position
from dimensions, spacing and origin: the node with axis indices
`(i, j, k)` sits at flat Fortran position `i + nx * (j + ny * k)` and has
coordinates `(ox + i*dx, oy + j*dy, oz + k*dz)`. -/
theorem uniform_points_formula (g : UniformGrid α) (i j k : Nat)
    (hi : i < g.dims.1) (hj : j < g.dims.2.1) (hk : k < g.dims.2.2) :
    (g.points)[i + g.dims.1 * (j + g.dims.2.1 * k)]? =
      some (g.origin.1 + (i : α) * g.spacing.1,
        g.origin.2.1 + (j : α) * g.spacing.2.1,
        g.origin.2.2 + (k : α) * g.spacing.2.2) :=
  uniform_points_index g.dims.1 g.dims.2.1 g.dims.2.2 g.spacing.1
    g.spacing.2.1 g.spacing.2.2 g.origin.1 g.origin.2.1 g.origin.2.2
    i j k hi hj hk

/-- Witness for C6: the node `(1, 2, 3)` of a concrete 2-by-3-by-4 integer
grid sits at flat position 23 with the predicted coordinates. -/
theorem uniform_points_formula_witness :
    (1 : Nat) < 2 ∧ (2 : Nat) < 3 ∧ (3 : Nat) < 4 ∧
    ((UniformGrid.mk (2, 3, 4) (1, 2, 3) (10, 20, 30) [] [] [] [] :
        UniformGrid ℤ).points)[23]? = some (11, 24, 39) :=
  ⟨by decide, by decide, by decide,
   uniform_points_formula
     (UniformGrid.mk (2, 3, 4) (1, 2, 3) (10, 20, 30) [] [] [] [] :
       UniformGrid ℤ)
     1 2 3 (by decide) (by decide) (by decide)⟩

/-- C7: whenever the `points` setter of a uniform grid succeeds, the stored
dimensions are the per-axis counts of unique column values, each stored
spacing component is the unique difference between consecutive unique
column values (`np.unique` of `np.diff`), and the stored origin is the
per-axis minimum. -/
theorem uniform_setPoints_derivation (g : UniformGrid α)
    (pts : List (α × α × α)) (g2 : UniformGrid α)
    (h : g.setPoints pts = some g2) :
    g2.dims = ((npUnique (pts.map (fun p => p.1))).length,
               (npUnique (pts.map (fun p => p.2.1))).length,
               (npUnique (pts.map (fun p => p.2.2))).length)
    ∧ npUnique (npDiff (npUnique (pts.map (fun p => p.1)))) = [g2.spacing.1]
    ∧ npUnique (npDiff (npUnique (pts.map (fun p => p.2.1)))) = [g2.spacing.2.1]
    ∧ npUnique (npDiff (npUnique (pts.map (fun p => p.2.2)))) = [g2.spacing.2.2]
    ∧ g2.origin = (npMin (npUnique (pts.map (fun p => p.1))),
                   npMin (npUnique (pts.map (fun p => p.2.1))),
                   npMin (npUnique (pts.map (fun p => p.2.2)))) := by
  have h2 : (match npUnique (npDiff (npUnique (pts.map (fun p => p.1)))),
      npUnique (npDiff (npUnique (pts.map (fun p => p.2.1)))),
      npUnique (npDiff (npUnique (pts.map (fun p => p.2.2)))) with
    | [dx], [dy], [dz] =>
        some (g.fromSpecs
          ((npUnique (pts.map (fun p => p.1))).length,
           (npUnique (pts.map (fun p => p.2.1))).length,
           (npUnique (pts.map (fun p => p.2.2))).length)
          (dx, dy, dz)
          (npMin (npUnique (pts.map (fun p => p.1))),
           npMin (npUnique (pts.map (fun p => p.2.1))),
           npMin (npUnique (pts.map (fun p => p.2.2)))))
    | _, _, _ => (none : Option (UniformGrid α))) = some g2 := h
  clear h
  split at h2
  · rename_i dx dy dz heq1 heq2 heq3
    rw [Option.some.injEq] at h2
    subst h2
    exact ⟨rfl, by rw [heq1]; rfl, by rw [heq2]; rfl, by rw [heq3]; rfl, rfl⟩
  · simp at h2

/-- Witness for C7 at a concrete two-point integer cloud. -/
theorem uniform_setPoints_derivation_witness :
    ((UniformGrid.empty : UniformGrid ℤ).setPoints [(0, 0, 0), (1, 2, 3)] =
        some (UniformGrid.mk (2, 2, 2) (1, 2, 3) (0, 0, 0) [] [] [] []))
    ∧ ((UniformGrid.mk (2, 2, 2) ((1 : ℤ), 2, 3) (0, 0, 0) [] [] [] []).dims
          = (2, 2, 2)
      ∧ npUnique (npDiff (npUnique
          (([(0, 0, 0), (1, 2, 3)] : List (ℤ × ℤ × ℤ)).map (fun p => p.1)))) = [1]
      ∧ npUnique (npDiff (npUnique
          (([(0, 0, 0), (1, 2, 3)] : List (ℤ × ℤ × ℤ)).map (fun p => p.2.1)))) = [2]
      ∧ npUnique (npDiff (npUnique
          (([(0, 0, 0), (1, 2, 3)] : List (ℤ × ℤ × ℤ)).map (fun p => p.2.2)))) = [3]
      ∧ (UniformGrid.mk (2, 2, 2) ((1 : ℤ), 2, 3) (0, 0, 0) [] [] [] []).origin
          = (0, 0, 0)) :=
  ⟨by decide,
   uniform_setPoints_derivation (UniformGrid.empty : UniformGrid ℤ)
     ([(0, 0, 0), (1, 2, 3)] : List (ℤ × ℤ × ℤ))
     (UniformGrid.mk (2, 2, 2) (1, 2, 3) (0, 0, 0) [] [] [] []) (by decide)⟩

/-- C8 counterexample: the cast does not store the sampled coordinate list
for every uniform grid.  With spacing `-1` the x-axis samples are
`[0, -1]`, but the `RectilinearGrid` constructor runs them through
`np.unique`, so the stored axis array is `[-1, 0]`, different from the
sampled coordinates. -/
theorem cast_negative_spacing_cex :
    genCoords 2 (-1) (0 : ℤ) = [0, -1]
    ∧ (UniformGrid.mk (2, 2, 2) (-1, -1, -1) (0, 0, 0) [] [] [] [] :
        UniformGrid ℤ).cast_to_rectilinear_grid.xCoords = [-1, 0]
    ∧ (UniformGrid.mk (2, 2, 2) (-1, -1, -1) (0, 0, 0) [] [] [] [] :
        UniformGrid ℤ).cast_to_rectilinear_grid.xCoords ≠
      genCoords 2 (-1) (0 : ℤ) := by
  decide

/-- C8 amended: whenever the cast succeeds — which requires every dimension
to be at least 1, `np.full(dims - 1, ...)` raising `ValueError` otherwise —
the produced rectilinear grid stores `np.unique` of the coordinates sampled
from the source's dimensions, spacing and origin on each axis (exactly the
sampled list whenever that axis's spacing is positive), its point, cell and
field attribute dictionaries and its metadata equal those attached to the
source grid, and the source grid itself is left unchanged. -/
theorem cast_to_rectilinear_amended (g : UniformGrid α)
    (r : RectilinearGrid α) (h : g.castToRectilinearGrid? = some r) :
    (0 < g.dims.1 ∧ 0 < g.dims.2.1 ∧ 0 < g.dims.2.2)
    ∧ r.xCoords = npUnique (genCoords g.dims.1 g.spacing.1 g.origin.1)
    ∧ r.yCoords = npUnique (genCoords g.dims.2.1 g.spacing.2.1 g.origin.2.1)
    ∧ r.zCoords = npUnique (genCoords g.dims.2.2 g.spacing.2.2 g.origin.2.2)
    ∧ (0 < g.spacing.1 →
        r.xCoords = genCoords g.dims.1 g.spacing.1 g.origin.1)
    ∧ (0 < g.spacing.2.1 →
        r.yCoords = genCoords g.dims.2.1 g.spacing.2.1 g.origin.2.1)
    ∧ (0 < g.spacing.2.2 →
        r.zCoords = genCoords g.dims.2.2 g.spacing.2.2 g.origin.2.2)
    ∧ r.point_arrays = g.point_arrays
    ∧ r.cell_arrays = g.cell_arrays
    ∧ r.field_arrays = g.field_arrays
    ∧ r.meta = g.meta
    ∧ g.castFull.2 = g := by
  have hax : ∀ (n : Nat) (d o : α), 0 < d →
      npUnique (genCoords n d o) = genCoords n d o := by
    intro n d o hd
    apply npUnique_of_sorted
    rw [genCoords_eq_uniformAxis]
    exact uniformAxis_sorted o hd
  unfold UniformGrid.castToRectilinearGrid? at h
  split at h
  · rename_i hdims
    rw [Option.some.injEq] at h
    subst h
    exact ⟨hdims, rfl, rfl, rfl,
      fun hd => hax _ _ _ hd, fun hd => hax _ _ _ hd, fun hd => hax _ _ _ hd,
      rfl, rfl, rfl, rfl, rfl⟩
  · exact absurd h (by simp)

/-- Witness for C8's amended statement at a concrete integer grid with a
negative x-spacing and attribute data. -/
theorem cast_to_rectilinear_amended_witness :
    ((UniformGrid.mk (2, 2, 2) (-1, 2, 1) (0, 0, 0)
        [(0, [5])] [(1, [6])] [(2, [7])] [(3, 4)] :
        UniformGrid ℤ).castToRectilinearGrid? =
      some (RectilinearGrid.mk (2, 2, 2) [-1, 0] [0, 2] [0, 1]
        [(0, [5])] [(1, [6])] [(2, [7])] [(3, 4)]))
    ∧ (((0 : Nat) < 2 ∧ (0 : Nat) < 2 ∧ (0 : Nat) < 2)
      ∧ ([-1, 0] : List ℤ) = npUnique (genCoords 2 (-1) 0)
      ∧ ([0, 2] : List ℤ) = npUnique (genCoords 2 2 0)
      ∧ ([0, 1] : List ℤ) = npUnique (genCoords 2 1 0)
      ∧ ((0 : ℤ) < -1 → ([-1, 0] : List ℤ) = genCoords 2 (-1) 0)
      ∧ ((0 : ℤ) < 2 → ([0, 2] : List ℤ) = genCoords 2 2 0)
      ∧ ((0 : ℤ) < 1 → ([0, 1] : List ℤ) = genCoords 2 1 0)
      ∧ ([(0, [5])] : List (Nat × List ℤ)) = [(0, [5])]
      ∧ ([(1, [6])] : List (Nat × List ℤ)) = [(1, [6])]
      ∧ ([(2, [7])] : List (Nat × List ℤ)) = [(2, [7])]
      ∧ ([(3, 4)] : List (Nat × ℤ)) = [(3, 4)]
      ∧ (UniformGrid.mk (2, 2, 2) ((-1 : ℤ), 2, 1) (0, 0, 0)
          [(0, [5])] [(1, [6])] [(2, [7])] [(3, 4)]).castFull.2 =
        UniformGrid.mk (2, 2, 2) (-1, 2, 1) (0, 0, 0)
          [(0, [5])] [(1, [6])] [(2, [7])] [(3, 4)]) :=
  ⟨by decide,
   cast_to_rectilinear_amended
     (UniformGrid.mk (2, 2, 2) (-1, 2, 1) (0, 0, 0)
       [(0, [5])] [(1, [6])] [(2, [7])] [(3, 4)] : UniformGrid ℤ)
     (RectilinearGrid.mk (2, 2, 2) [-1, 0] [0, 2] [0, 1]
       [(0, [5])] [(1, [6])] [(2, [7])] [(3, 4)])
     (by decide)⟩

/-- C9: constructing a rectilinear grid from exactly two coordinate arrays
is constructing from `(x, y, [0.0])`: the grid equals the three-array
construction with a `[0]` third axis, its z-dimension is 1, and every point
of the grid lies in the `z = 0` plane. -/
theorem rect_initArrays2_pads_z (x y : List α) :
    RectilinearGrid.initArrays2 x y = RectilinearGrid.initArrays3 x y [0]
    ∧ (RectilinearGrid.initArrays2 x y).dims.2.2 = 1
    ∧ ∀ p ∈ (RectilinearGrid.initArrays2 x y).points, p.2.2 = 0 := by
  refine ⟨rfl, ?_, ?_⟩
  · show (npUnique ([0] : List α)).length = 1
    rw [npUnique_singleton]
    rfl
  · intro p hp
    have hp2 : p ∈ meshgridRavelF (npUnique x) (npUnique y)
        (npUnique ([0] : List α)) := hp
    have h := (mem_meshgridRavelF.mp hp2).2.2
    rw [npUnique_singleton] at h
    simpa using h

/-- Witness for C9: the point `(1, 2, 0)` of the grid built from `[1]` and
`[2]` lies in the `z = 0` plane. -/
theorem rect_initArrays2_pads_z_witness :
    (((1 : ℤ), (2 : ℤ), (0 : ℤ)) ∈
        (RectilinearGrid.initArrays2 ([1] : List ℤ) [2]).points)
    ∧ (((1 : ℤ), (2 : ℤ), (0 : ℤ)).2.2 = (0 : ℤ)) :=
  ⟨by decide,
   (rect_initArrays2_pads_z ([1] : List ℤ) [2]).2.2 (1, 2, 0) (by decide)⟩

/-- C10 counterexample: calling `UniformGrid.__init__` with three
specification arguments of lengths 3, 3 and 2 does not leave the grid
empty: the dispatch still calls `_from_specs` with the first two arguments,
so dimensions and spacing are set. -/
theorem uniform_init_third_invalid_cex :
    uniformInitDispatch 3 3 (some 2) = SpecsCall.withTwo
    ∧ UniformGrid.initMultiArg [2, 2, 2] ([1, 1, 1] : List ℤ) (some [0, 0]) ≠
        UniformGrid.empty := by
  decide

/-- C10 amended: with two specification arguments, any argument of length
other than 3 silently skips `_from_specs` and leaves the grid empty; with
three arguments this only holds when the first or second argument has
length other than 3 — if only the third argument is invalid,
`_from_specs` is still called with the first two arguments. -/
theorem uniform_init_dispatch_amended (l0 l1 l2 : Nat) (dims : List Nat)
    (spacing : List α) (origin? : Option (List α))
    (h : uniformInitDispatch dims.length spacing.length
      (origin?.map List.length) = SpecsCall.noCall) :
    UniformGrid.initMultiArg dims spacing origin? = UniformGrid.empty
    ∧ (uniformInitDispatch l0 l1 none = SpecsCall.noCall ↔ (l0 ≠ 3 ∨ l1 ≠ 3))
    ∧ (uniformInitDispatch l0 l1 (some l2) = SpecsCall.noCall ↔
        (l0 ≠ 3 ∨ l1 ≠ 3))
    ∧ (uniformInitDispatch l0 l1 none = SpecsCall.withTwo ↔
        (l0 = 3 ∧ l1 = 3))
    ∧ (uniformInitDispatch l0 l1 (some l2) = SpecsCall.withTwo ↔
        (l0 = 3 ∧ l1 = 3 ∧ l2 ≠ 3))
    ∧ (uniformInitDispatch l0 l1 (some l2) = SpecsCall.withThree ↔
        (l0 = 3 ∧ l1 = 3 ∧ l2 = 3))
    ∧ uniformInitDispatch l0 l1 none ≠ SpecsCall.withThree := by
  refine ⟨?_, ?_, ?_, ?_, ?_, ?_, ?_⟩
  · unfold UniformGrid.initMultiArg
    rw [h]
  · by_cases h0 : l0 = 3 <;> by_cases h1 : l1 = 3 <;>
      simp [uniformInitDispatch, h0, h1]
  · by_cases h0 : l0 = 3 <;> by_cases h1 : l1 = 3 <;>
      by_cases hl2 : l2 = 3 <;> simp [uniformInitDispatch, h0, h1, hl2]
  · by_cases h0 : l0 = 3 <;> by_cases h1 : l1 = 3 <;>
      simp [uniformInitDispatch, h0, h1]
  · by_cases h0 : l0 = 3 <;> by_cases h1 : l1 = 3 <;>
      by_cases hl2 : l2 = 3 <;> simp [uniformInitDispatch, h0, h1, hl2]
  · by_cases h0 : l0 = 3 <;> by_cases h1 : l1 = 3 <;>
      by_cases hl2 : l2 = 3 <;> simp [uniformInitDispatch, h0, h1, hl2]
  · by_cases h0 : l0 = 3 <;> by_cases h1 : l1 = 3 <;>
      simp [uniformInitDispatch, h0, h1]

/-- Witness for C10's amended statement: two arguments of lengths 2 and 3
leave the grid empty. -/
theorem uniform_init_dispatch_amended_witness :
    uniformInitDispatch 2 3 none = SpecsCall.noCall
    ∧ UniformGrid.initMultiArg [4, 4] ([1, 1, 1] : List ℤ) none =
        UniformGrid.empty :=
  ⟨by decide,
   (uniform_init_dispatch_amended 2 3 0 [4, 4] ([1, 1, 1] : List ℤ) none
     (by decide)).1⟩

end ClaimTheorems
